import Mathlib

/-!
Verification of the SmuView device acquisition and signal-demultiplexing
engine (`src/devices/hardwaredevice.cpp`) against its natural-language
specification.

The C++ code is shallowly embedded:
* `QString` / `std::string` are modelled as Lean `String`; the character-wise
  `QString::startsWith` is `qStartsWith` below.
* `shared_ptr<data::AnalogData>` buffer identity is modelled by giving every
  buffer allocation (`make_shared<AnalogData>()` / `init_time_data()`) a fresh
  numeric id `buf_id` drawn from an allocation counter that is threaded through
  the constructor.  Two signals share a buffer iff their buffers carry the
  same id.
* The `sigrok` driver objects are modelled by plain records carrying exactly
  the data the engine reads from them (config keys, channels, channel groups,
  identity strings).
* The acquisition thread body and `open`/`close` are modelled as state
  transformers that also produce the ordered list of observable events
  (error-handler invocations, state changes, callback registrations, ...);
  driver calls that can throw (`sr_device->open()`, `session->start()`,
  `session->run()`) take their outcome as an explicit `DriverResult` input.
* `Q_EMIT configurable->slot(value)` is modelled as appending an emission
  `(configurable, slot-with-decoded-value)` to the output list of
  `feed_in_meta`; dispatching through a null configurable yields `none`.
* Floating-point payloads of metadata values are only ever passed through,
  never computed on, so they are modelled as `Int`.
-/

namespace SmuView

/-- `QString::startsWith` compares character sequences. -/
def qStartsWith (s p : String) : Bool := p.data.isPrefixOf s.data

/-- The `sigrok::ConfigKey`s the constructor tests for, plus all others. -/
inductive SrConfigKey
  | POWER_SUPPLY
  | ELECTRONIC_LOAD
  | MULTIMETER
  | DEMO_DEV
  | OTHER (n : Nat)
  deriving DecidableEq

/-- `HardwareDevice::Type` (`type_`). -/
inductive DeviceType
  | POWER_SUPPLY
  | ELECTRONIC_LOAD
  | MULTIMETER
  | DEMO_DEV
  | UNKNOWN
  deriving DecidableEq

/-- The `sigrok::Quantity` values the engine assigns. -/
inductive SrQuantity
  | TIME
  | VOLTAGE
  | CURRENT
  | FREQUENCY
  deriving DecidableEq

/-- The `sigrok::Unit` values the engine assigns. -/
inductive SrUnit
  | SECOND
  | VOLT
  | AMPERE
  | HERTZ
  deriving DecidableEq

/-- Channel kind: `SR_CHANNEL_LOGIC` or `SR_CHANNEL_ANALOG`. -/
inductive SrChannelType
  | LOGIC
  | ANALOG
  deriving DecidableEq

/-- A `sigrok::Channel`: identity (for `sr_channel_signal_map_` keys), kind,
and the internal short name (`"V1"`, `"I1"`, ...) used to classify it. -/
structure SrChannel where
  id : Nat
  type : SrChannelType
  name : String
  deriving DecidableEq

/-- A `sigrok::ChannelGroup`: its name and the ids of its member channels. -/
structure SrChannelGroup where
  name : String
  channel_ids : List Nat
  deriving DecidableEq

/-- The data the constructor and the naming functions read from a
`sigrok::HardwareDevice` (driver config keys, channels, channel groups, and
the five identity strings). -/
structure SrHardwareDevice where
  driver_config_keys : List SrConfigKey
  channels : List SrChannel
  channel_groups : List SrChannelGroup
  vendor : String
  model : String
  version : String
  serial_number : String
  connection_id : String
  deriving DecidableEq

/-- `data::AnalogData`: one time-series buffer.  `buf_id` models
`shared_ptr` identity (fresh per `make_shared`); the other fields are the
static metadata set through `set_fixed_quantity` / `set_quantity` /
`set_unit`.  A default-constructed buffer has no quantity and no unit set. -/
structure AnalogData where
  buf_id : Nat
  fixed_quantity : Bool
  quantity : Option SrQuantity
  unit : Option SrUnit
  deriving DecidableEq

/-- `data::BaseSignal`: derived from one channel; wraps a time buffer and a
value buffer.  (The wall-clock `set_time_start` timestamp is environment
input irrelevant to every claim and is omitted.) -/
structure BaseSignal where
  channel_id : Nat
  internal_name : String
  fixed_mq : Bool
  time_data : AnalogData
  data : AnalogData
  deriving DecidableEq

instance : Inhabited BaseSignal :=
  ⟨{ channel_id := 0, internal_name := "", fixed_mq := false,
     time_data := { buf_id := 0, fixed_quantity := false, quantity := none, unit := none },
     data := { buf_id := 0, fixed_quantity := false, quantity := none, unit := none } }⟩

/-- What a `devices::Configurable` was constructed from: a channel group
(`make_shared<Configurable>(sr_cg)`) or the whole device
(`make_shared<Configurable>(sr_device_)`). -/
inductive ConfSource
  | group (name : String)
  | device
  deriving DecidableEq

/-- `devices::Configurable`. -/
structure Configurable where
  src : ConfSource
  deriving DecidableEq

/-- The fields of `HardwareDevice` (the Device Session) that the claims are
about, as they stand when the constructor returns. -/
structure HardwareDevice where
  type_ : DeviceType
  all_signals_ : List BaseSignal
  signal_name_map_ : List (String × BaseSignal)
  sr_channel_signal_map_ : List (Nat × BaseSignal)
  voltage_signal_ : Option BaseSignal
  current_signal_ : Option BaseSignal
  measurement_signal_ : Option BaseSignal
  configurables_ : List Configurable
  channel_group_name_signals_map_ : List (String × List BaseSignal)
  deriving DecidableEq

instance : Inhabited HardwareDevice :=
  ⟨{ type_ := .UNKNOWN, all_signals_ := [], signal_name_map_ := [],
     sr_channel_signal_map_ := [], voltage_signal_ := none,
     current_signal_ := none, measurement_signal_ := none,
     configurables_ := [], channel_group_name_signals_map_ := [] }⟩

/-- `HardwareDevice::init_time_data()`: allocate a fresh buffer, make it a
fixed-quantity TIME/SECOND buffer.  Returns the buffer and the next
allocation id. -/
def init_time_data (alloc : Nat) : AnalogData × Nat :=
  ({ buf_id := alloc, fixed_quantity := true,
     quantity := some .TIME, unit := some .SECOND }, alloc + 1)

/-- The constructor-local state threaded through the `init_signal` calls:
the allocation counter plus every member `init_signal` mutates. -/
structure CtorState where
  alloc : Nat
  all_signals_ : List BaseSignal
  signal_name_map_ : List (String × BaseSignal)
  sr_channel_signal_map_ : List (Nat × BaseSignal)
  voltage_signal_ : Option BaseSignal
  current_signal_ : Option BaseSignal
  measurement_signal_ : Option BaseSignal
  deriving DecidableEq

/-- The it-is-the-first-one bookkeeping at the end of
`HardwareDevice::init_signal` (lines 392-399): record the new signal as the
canonical voltage / current / measurement signal if that slot is still
unset. -/
def update_canonical (signal : BaseSignal) (s : CtorState) : CtorState :=
  if qStartsWith signal.internal_name "V" = true ∧ s.voltage_signal_ = none then
    { s with voltage_signal_ := some signal }
  else if qStartsWith signal.internal_name "I" = true ∧ s.current_signal_ = none then
    { s with current_signal_ := some signal }
  else if signal.internal_name = "P1" ∧ s.measurement_signal_ = none then
    { s with measurement_signal_ := some signal }
  else if signal.internal_name = "A1" ∧ s.measurement_signal_ = none then
    { s with measurement_signal_ := some signal }
  else s

/-- `HardwareDevice::init_signal`: logic channels are skipped ("Not supported
at the moment"); an analog channel gets a signal whose time buffer is the
common one if present, else freshly allocated, and whose value buffer is
classified by the naming convention on the internal channel name. -/
def init_signal (sr_channel : SrChannel) (common_time_data : Option AnalogData)
    (fixed_mq : Bool) (s : CtorState) : Option BaseSignal × CtorState :=
  match sr_channel.type with
  | .LOGIC => (none, s)
  | .ANALOG =>
    let td : AnalogData × Nat :=
      match common_time_data with
      | some ctd => (ctd, s.alloc)
      | none => init_time_data s.alloc
    let time_data := td.1
    let a1 := td.2
    let d0 : AnalogData :=
      { buf_id := a1, fixed_quantity := false, quantity := none, unit := none }
    let data :=
      if qStartsWith sr_channel.name "V" = true then
        { d0 with fixed_quantity := fixed_mq, quantity := some .VOLTAGE, unit := some .VOLT }
      else if qStartsWith sr_channel.name "I" = true then
        { d0 with fixed_quantity := fixed_mq, quantity := some .CURRENT, unit := some .AMPERE }
      else if qStartsWith sr_channel.name "F" = true then
        { d0 with fixed_quantity := fixed_mq, quantity := some .FREQUENCY, unit := some .HERTZ }
      else if sr_channel.name = "P1" then
        { d0 with fixed_quantity := fixed_mq }
      else if qStartsWith sr_channel.name "A" = true then
        { d0 with fixed_quantity := fixed_mq, quantity := some .VOLTAGE, unit := some .VOLT }
      else d0
    let signal : BaseSignal :=
      { channel_id := sr_channel.id, internal_name := sr_channel.name,
        fixed_mq := fixed_mq, time_data := time_data, data := data }
    let s1 : CtorState :=
      { s with
        alloc := a1 + 1,
        all_signals_ := s.all_signals_ ++ [signal],
        signal_name_map_ := s.signal_name_map_ ++ [(signal.internal_name, signal)],
        sr_channel_signal_map_ := s.sr_channel_signal_map_ ++ [(sr_channel.id, signal)] }
    (some signal, update_canonical signal s1)

/-- The constructor's `for (auto sr_channel : sr_channels)` loop. -/
def init_signals (chs : List SrChannel) (common_time_data : Option AnalogData)
    (fixed_mq : Bool) (s : CtorState) : CtorState :=
  match chs with
  | [] => s
  | ch :: rest =>
    init_signals rest common_time_data fixed_mq (init_signal ch common_time_data fixed_mq s).2

/-- `sr_channel_signal_map_.count/operator[]` on the association list. -/
def lookup_signal (m : List (Nat × BaseSignal)) (cid : Nat) : Option BaseSignal :=
  match m with
  | [] => none
  | (k, v) :: rest => if k = cid then some v else lookup_signal rest cid

/-- A group's member channels resolved to already-created signals; channels
with no signal (e.g. logic channels) are silently excluded. -/
def cg_signals_of (m : List (Nat × BaseSignal)) (ids : List Nat) : List BaseSignal :=
  match ids with
  | [] => []
  | cid :: rest =>
    match lookup_signal m cid with
    | some sig => sig :: cg_signals_of m rest
    | none => cg_signals_of m rest

/-- Rest of the constructor after the device type, common time buffer and
fixed-quantity flag have been decided: init the signals, then materialize the
channel groups into configurables (or one whole-device configurable when the
driver reports no groups). -/
def construct_with (d : SrHardwareDevice) (ty : DeviceType)
    (common_time_data : Option AnalogData) (fixed_mq : Bool) (alloc0 : Nat) :
    HardwareDevice :=
  let s := init_signals d.channels common_time_data fixed_mq
    { alloc := alloc0, all_signals_ := [], signal_name_map_ := [],
      sr_channel_signal_map_ := [], voltage_signal_ := none,
      current_signal_ := none, measurement_signal_ := none }
  if 0 < d.channel_groups.length then
    { type_ := ty,
      all_signals_ := s.all_signals_,
      signal_name_map_ := s.signal_name_map_,
      sr_channel_signal_map_ := s.sr_channel_signal_map_,
      voltage_signal_ := s.voltage_signal_,
      current_signal_ := s.current_signal_,
      measurement_signal_ := s.measurement_signal_,
      configurables_ := d.channel_groups.map (fun cg => { src := .group cg.name }),
      channel_group_name_signals_map_ :=
        d.channel_groups.map
          (fun cg => (cg.name, cg_signals_of s.sr_channel_signal_map_ cg.channel_ids)) }
  else
    { type_ := ty,
      all_signals_ := s.all_signals_,
      signal_name_map_ := s.signal_name_map_,
      sr_channel_signal_map_ := s.sr_channel_signal_map_,
      voltage_signal_ := s.voltage_signal_,
      current_signal_ := s.current_signal_,
      measurement_signal_ := s.measurement_signal_,
      configurables_ := [{ src := .device }],
      channel_group_name_signals_map_ := [] }

/-- The address of a C string literal is never null, so
`assert("Unknown device")` always passes. -/
def string_literal_nonnull (_s : String) : Bool := true

/-- `HardwareDevice::HardwareDevice`: classify the device type from the
driver's config keys, decide the common time buffer and the fixed-quantity
flag, then build signals and configurables.  `none` models an aborted
construction (a failing `assert`). -/
def HardwareDevice.construct (d : SrHardwareDevice) : Option HardwareDevice :=
  if d.driver_config_keys.contains .POWER_SUPPLY then
    some (construct_with d .POWER_SUPPLY none true 0)
  else if d.driver_config_keys.contains .ELECTRONIC_LOAD then
    some (construct_with d .ELECTRONIC_LOAD (some (init_time_data 0).1) true (init_time_data 0).2)
  else if d.driver_config_keys.contains .MULTIMETER then
    some (construct_with d .MULTIMETER none false 0)
  else if d.driver_config_keys.contains .DEMO_DEV then
    some (construct_with d .DEMO_DEV none false 0)
  else
    if string_literal_nonnull "Unknown device" then
      some (construct_with d .UNKNOWN none false 0)
    else
      none

/-- `HardwareDevice::voltage_signal()`. -/
def HardwareDevice.voltage_signal (dev : HardwareDevice) : Option BaseSignal :=
  dev.voltage_signal_

/-- `HardwareDevice::current_signal()`. -/
def HardwareDevice.current_signal (dev : HardwareDevice) : Option BaseSignal :=
  dev.current_signal_

/-- `HardwareDevice::measurement_signal()`. -/
def HardwareDevice.measurement_signal (dev : HardwareDevice) : Option BaseSignal :=
  dev.measurement_signal_

/-- `HardwareDevice::all_signals()`. -/
def HardwareDevice.all_signals (dev : HardwareDevice) : List BaseSignal :=
  dev.all_signals_

/-- `HardwareDevice::configurables()`. -/
def HardwareDevice.configurables (dev : HardwareDevice) : List Configurable :=
  dev.configurables_

/-- `HardwareDevice::channel_group_name_signals_map()`. -/
def HardwareDevice.channel_group_name_signals_map (dev : HardwareDevice) :
    List (String × List BaseSignal) :=
  dev.channel_group_name_signals_map_

/-- `HardwareDevice::full_name()`, line for line: each present identity field
is appended followed by the current separator, and the separator becomes a
single space after the first appended field; the connection id is
parenthesized and preceded by the separator. -/
def full_name (d : SrHardwareDevice) : String :=
  let sep : String := ""
  let name : String := ""
  let r1 : String × String :=
    if 0 < d.vendor.length then (name ++ d.vendor ++ sep, " ") else (name, sep)
  let r2 : String × String :=
    if 0 < d.model.length then (r1.1 ++ d.model ++ r1.2, " ") else r1
  let r3 : String × String :=
    if 0 < d.version.length then (r2.1 ++ d.version ++ r2.2, " ") else r2
  let r4 : String × String :=
    if 0 < d.serial_number.length then (r3.1 ++ d.serial_number ++ r3.2, " ") else r3
  if 0 < d.connection_id.length then
    r4.1 ++ r4.2 ++ "(" ++ d.connection_id ++ ")"
  else
    r4.1

/-- `HardwareDevice::short_name()`: same scheme over vendor, model and
connection id only. -/
def short_name (d : SrHardwareDevice) : String :=
  let sep : String := ""
  let name : String := ""
  let r1 : String × String :=
    if 0 < d.vendor.length then (name ++ d.vendor ++ sep, " ") else (name, sep)
  let r2 : String × String :=
    if 0 < d.model.length then (r1.1 ++ d.model ++ r1.2, " ") else r1
  if 0 < d.connection_id.length then
    r2.1 ++ r2.2 ++ "(" ++ d.connection_id ++ ")"
  else
    r2.1

/-! ## Lifecycle: `open`, `close`, and the acquisition thread -/

/-- `aquisition_state_` (spelling as in the source). -/
inductive AcqState
  | Stopped
  | Running
  deriving DecidableEq

/-- Outcome of a driver call that may throw a `sigrok::Error`. -/
inductive DriverResult
  | ok
  | err (msg : String)
  deriving DecidableEq

/-- The mutable session state the lifecycle code touches. -/
structure DevState where
  device_open_ : Bool
  aquisition_state_ : AcqState
  out_of_memory_ : Bool
  deriving DecidableEq

/-- Observable events of the lifecycle code, in program order.
`error_handler_call` is an invocation of the `error_handler` callback;
`packet_processing` marks the packet-callback activity inside the driver's
run loop (in this design packets are delivered synchronously from within
`run()`). -/
inductive Event
  | error_handler_call (msg : String)
  | set_state (s : AcqState)
  | packet_processing
  | free_unused_memory
  | sr_device_opened
  | device_added
  | datafeed_callback_added
  | datafeed_callbacks_removed
  | session_stop_requested
  | thread_spawned
  | thread_joined
  | devices_removed
  | sr_device_closed
  deriving DecidableEq

/-- The exact wording used for the resource-exhaustion report. -/
def oom_message : String := "Out of memory, acquisition stopped."

/-- `HardwareDevice::aquisition_thread_proc`, as a state transformer over the
outcomes of `sr_session_->start()` and `sr_session_->run()`.
`oom_in_packets` says whether an allocation failure inside the packet
callback flagged `out_of_memory_` while the run loop was executing (the
callback records the flag and never throws). -/
def aquisition_thread_proc (startRes runRes : DriverResult) (oom_in_packets : Bool)
    (st : DevState) : DevState × List Event :=
  let st := { st with out_of_memory_ := false }
  match startRes with
  | .err m =>
    -- catch: error_handler(e.what()); return;   (aquisition_state_ untouched)
    (st, [.error_handler_call m])
  | .ok =>
    let st := { st with aquisition_state_ := .Running }
    let ev : List Event := [.set_state .Running]
    -- the run loop delivers packets synchronously; an allocation failure
    -- there sets out_of_memory_ and aborts that packet, nothing more
    let st := { st with out_of_memory_ := oom_in_packets }
    let ev := ev ++ (if oom_in_packets then [.packet_processing] else [])
    match runRes with
    | .err m =>
      -- catch: error_handler(e.what()); aquisition_state_ = Stopped; return;
      ({ st with aquisition_state_ := .Stopped },
        ev ++ [.error_handler_call m, .set_state .Stopped])
    | .ok =>
      let st := { st with aquisition_state_ := .Stopped }
      let ev := ev ++ [.set_state .Stopped, .free_unused_memory]
      if st.out_of_memory_ then
        (st, ev ++ [.error_handler_call oom_message])
      else
        (st, ev)

/-- The event trace of one acquisition-thread execution. -/
def thread_trace (startRes runRes : DriverResult) (oom_in_packets : Bool)
    (st : DevState) : List Event :=
  (aquisition_thread_proc startRes runRes oom_in_packets st).2

/-- `HardwareDevice::close()`: no-op when not open; otherwise remove the
callbacks, stop the session if not already stopped, join the thread,
unregister and close the device. -/
def close (st : DevState) : DevState × List Event :=
  if st.device_open_ = false then
    (st, [])
  else
    let ev : List Event := [.datafeed_callbacks_removed]
    let r1 : DevState × List Event :=
      if st.aquisition_state_ ≠ .Stopped then
        ({ st with aquisition_state_ := .Stopped },
          ev ++ [.session_stop_requested, .set_state .Stopped])
      else
        (st, ev)
    ({ r1.1 with device_open_ := false },
      r1.2 ++ [.thread_joined, .devices_removed, .sr_device_closed])

/-- Result of `HardwareDevice::open(error_handler)`: the `QString` thrown to
the caller (if any), the session state, and the event trace of `open` itself
(the spawned thread's own actions are separate, see `open_then_run`). -/
structure OpenResult where
  thrown : Option String
  st : DevState
  events : List Event
  deriving DecidableEq

/-- `HardwareDevice::open(error_handler)`: close first when already open;
`sr_device_->open()` failure is rethrown as a `QString` to the caller;
on success register the device and the packet callback, mark the device
open, spawn the acquisition thread and set the state to Running. -/
def open_ (devOpenRes : DriverResult) (st : DevState) : OpenResult :=
  let r0 : DevState × List Event :=
    if st.device_open_ then close st else (st, [])
  match devOpenRes with
  | .err m => { thrown := some m, st := r0.1, events := r0.2 }
  | .ok =>
    let ev := r0.2 ++ [.sr_device_opened, .device_added, .datafeed_callback_added]
    let st1 := { r0.1 with device_open_ := true }
    let ev := ev ++ [.thread_spawned]
    let st2 := { st1 with aquisition_state_ := .Running }
    { thrown := none, st := st2, events := ev }

/-- `open()` followed by the spawned acquisition thread's body (the
interleaving in which the thread body runs after `open` has returned; the
thread is only spawned when `open` did not throw). -/
def open_then_run (devOpenRes startRes runRes : DriverResult) (oom_in_packets : Bool)
    (st : DevState) : DevState × List Event :=
  let r := open_ devOpenRes st
  match r.thrown with
  | some _ => (r.st, r.events)
  | none =>
    let t := aquisition_thread_proc startRes runRes oom_in_packets r.st
    (t.1, r.events ++ t.2)

/-! ## Metadata demultiplexing (`feed_in_meta`) -/

/-- The `sigrok` config keys `feed_in_meta` recognizes; `SR_CONF_UNRECOGNIZED`
stands for every other key (they hit the switch's `default:` case). -/
inductive MetaKey
  | SR_CONF_ENABLED
  | SR_CONF_VOLTAGE_TARGET
  | SR_CONF_CURRENT_LIMIT
  | SR_CONF_OVER_TEMPERATURE_PROTECTION
  | SR_CONF_OVER_TEMPERATURE_PROTECTION_ACTIVE
  | SR_CONF_OVER_VOLTAGE_PROTECTION_ENABLED
  | SR_CONF_OVER_VOLTAGE_PROTECTION_ACTIVE
  | SR_CONF_OVER_VOLTAGE_PROTECTION_THRESHOLD
  | SR_CONF_OVER_CURRENT_PROTECTION_ENABLED
  | SR_CONF_OVER_CURRENT_PROTECTION_ACTIVE
  | SR_CONF_OVER_CURRENT_PROTECTION_THRESHOLD
  | SR_CONF_UNDER_VOLTAGE_CONDITION
  | SR_CONF_UNDER_VOLTAGE_CONDITION_ACTIVE
  | SR_CONF_UNRECOGNIZED (n : Nat)
  deriving DecidableEq

/-- A `GVariant` metadata value (double payloads modelled as `Int`; they are
only passed through). -/
inductive GVariant
  | gbool (b : Bool)
  | gdouble (v : Int)
  deriving DecidableEq

/-- `g_variant_get_boolean`. -/
def g_variant_get_boolean : GVariant → Bool
  | .gbool b => b
  | .gdouble _ => false

/-- `g_variant_get_double`. -/
def g_variant_get_double : GVariant → Int
  | .gdouble v => v
  | .gbool _ => 0

/-- The Qt signals a `Configurable` can emit, with the decoded value. -/
inductive Slot
  | enabled_changed (b : Bool)
  | voltage_target_changed (v : Int)
  | current_limit_changed (v : Int)
  | otp_enabled_changed (b : Bool)
  | otp_active_changed (b : Bool)
  | ovp_enabled_changed (b : Bool)
  | ovp_active_changed (b : Bool)
  | ovp_threshold_changed (v : Int)
  | ocp_enabled_changed (b : Bool)
  | ocp_active_changed (b : Bool)
  | ocp_threshold_changed (v : Int)
  | uvc_enabled_changed (b : Bool)
  | uvc_active_changed (b : Bool)
  deriving DecidableEq

/-- `Q_EMIT configurable->slot(value)`: dispatch through a possibly-null
`Configurable` pointer; `none` is the null dereference. -/
def emit (configurable : Option Configurable) (s : Slot) :
    Option (Configurable × Slot) :=
  match configurable with
  | some c => some (c, s)
  | none => none

/-- The `for (auto entry : sr_meta->config())` loop of `feed_in_meta`:
each recognized key emits exactly one notification on `configurable`;
the `default:` case ("Unknown metadata is not an error.") emits nothing. -/
def feed_entries (configurable : Option Configurable) :
    List (MetaKey × GVariant) → Option (List (Configurable × Slot))
  | [] => some []
  | entry :: rest =>
    let this_emit : Option (List (Configurable × Slot)) :=
      match entry.1 with
      | .SR_CONF_ENABLED =>
        (emit configurable (.enabled_changed (g_variant_get_boolean entry.2))).map (fun e => [e])
      | .SR_CONF_VOLTAGE_TARGET =>
        (emit configurable (.voltage_target_changed (g_variant_get_double entry.2))).map (fun e => [e])
      | .SR_CONF_CURRENT_LIMIT =>
        (emit configurable (.current_limit_changed (g_variant_get_double entry.2))).map (fun e => [e])
      | .SR_CONF_OVER_TEMPERATURE_PROTECTION =>
        (emit configurable (.otp_enabled_changed (g_variant_get_boolean entry.2))).map (fun e => [e])
      | .SR_CONF_OVER_TEMPERATURE_PROTECTION_ACTIVE =>
        (emit configurable (.otp_active_changed (g_variant_get_boolean entry.2))).map (fun e => [e])
      | .SR_CONF_OVER_VOLTAGE_PROTECTION_ENABLED =>
        (emit configurable (.ovp_enabled_changed (g_variant_get_boolean entry.2))).map (fun e => [e])
      | .SR_CONF_OVER_VOLTAGE_PROTECTION_ACTIVE =>
        (emit configurable (.ovp_active_changed (g_variant_get_boolean entry.2))).map (fun e => [e])
      | .SR_CONF_OVER_VOLTAGE_PROTECTION_THRESHOLD =>
        (emit configurable (.ovp_threshold_changed (g_variant_get_double entry.2))).map (fun e => [e])
      | .SR_CONF_OVER_CURRENT_PROTECTION_ENABLED =>
        (emit configurable (.ocp_enabled_changed (g_variant_get_boolean entry.2))).map (fun e => [e])
      | .SR_CONF_OVER_CURRENT_PROTECTION_ACTIVE =>
        (emit configurable (.ocp_active_changed (g_variant_get_boolean entry.2))).map (fun e => [e])
      | .SR_CONF_OVER_CURRENT_PROTECTION_THRESHOLD =>
        (emit configurable (.ocp_threshold_changed (g_variant_get_double entry.2))).map (fun e => [e])
      | .SR_CONF_UNDER_VOLTAGE_CONDITION =>
        (emit configurable (.uvc_enabled_changed (g_variant_get_boolean entry.2))).map (fun e => [e])
      | .SR_CONF_UNDER_VOLTAGE_CONDITION_ACTIVE =>
        (emit configurable (.uvc_active_changed (g_variant_get_boolean entry.2))).map (fun e => [e])
      | .SR_CONF_UNRECOGNIZED _ => some []
    match this_emit, feed_entries configurable rest with
    | some hd, some tl => some (hd ++ tl)
    | _, _ => none

/-- `HardwareDevice::feed_in_meta`: pick the configurable at index 0 (the
meta packet does not say which channel group the key belongs to), then
process every entry. -/
def feed_in_meta (dev : HardwareDevice) (entries : List (MetaKey × GVariant)) :
    Option (List (Configurable × Slot)) :=
  let configurable : Option Configurable := dev.configurables_.head?
  feed_entries configurable entries

/-- A key the `feed_in_meta` switch recognizes. -/
def recognized_key (k : MetaKey) : Bool :=
  match k with
  | .SR_CONF_UNRECOGNIZED _ => false
  | _ => true

/-! ## Concrete devices used as inputs of witnesses and counterexamples -/

/-- A device whose driver reports none of the four known capability keys,
with one ordinary analog channel. -/
def unknown_key_device : SrHardwareDevice :=
  { driver_config_keys := [.OTHER 7],
    channels := [{ id := 0, type := .ANALOG, name := "V1" }],
    channel_groups := [],
    vendor := "", model := "", version := "", serial_number := "", connection_id := "" }

/-- The session `HardwareDevice::HardwareDevice` builds for it. -/
def unknown_key_result : HardwareDevice :=
  (HardwareDevice.construct unknown_key_device).getD default

/-- A multimeter whose only channel is the generic analog input "A1". -/
def a1_only_device : SrHardwareDevice :=
  { driver_config_keys := [.MULTIMETER],
    channels := [{ id := 0, type := .ANALOG, name := "A1" }],
    channel_groups := [],
    vendor := "", model := "", version := "", serial_number := "", connection_id := "" }

/-- The session built for `a1_only_device`. -/
def a1_only_result : HardwareDevice :=
  (HardwareDevice.construct a1_only_device).getD default

/-- An electronic load with two analog channels. -/
def el_device : SrHardwareDevice :=
  { driver_config_keys := [.ELECTRONIC_LOAD],
    channels := [{ id := 0, type := .ANALOG, name := "V1" },
                 { id := 1, type := .ANALOG, name := "I1" }],
    channel_groups := [],
    vendor := "", model := "", version := "", serial_number := "", connection_id := "" }

/-- The session built for `el_device`. -/
def el_result : HardwareDevice :=
  (HardwareDevice.construct el_device).getD default

/-- A power supply with two analog channels. -/
def ps_device : SrHardwareDevice :=
  { driver_config_keys := [.POWER_SUPPLY],
    channels := [{ id := 0, type := .ANALOG, name := "V1" },
                 { id := 1, type := .ANALOG, name := "I1" }],
    channel_groups := [],
    vendor := "", model := "", version := "", serial_number := "", connection_id := "" }

/-- The session built for `ps_device`. -/
def ps_result : HardwareDevice :=
  (HardwareDevice.construct ps_device).getD default

/-- A demo device with one channel group, used to exercise `voltage_signal`
and friends on a multi-channel device. -/
def demo_device : SrHardwareDevice :=
  { driver_config_keys := [.DEMO_DEV],
    channels := [{ id := 0, type := .ANALOG, name := "F1" },
                 { id := 1, type := .ANALOG, name := "A1" },
                 { id := 2, type := .ANALOG, name := "V1" }],
    channel_groups := [{ name := "G1", channel_ids := [0, 1, 2] }],
    vendor := "", model := "", version := "", serial_number := "", connection_id := "" }

/-- The session built for `demo_device`. -/
def demo_result : HardwareDevice :=
  (HardwareDevice.construct demo_device).getD default

/-- The empty constructor-local state `init_signal` starts from when the
allocation counter is 0. -/
def ctor_state0 : CtorState :=
  { alloc := 0, all_signals_ := [], signal_name_map_ := [],
    sr_channel_signal_map_ := [], voltage_signal_ := none,
    current_signal_ := none, measurement_signal_ := none }

/-- The signal `init_signal` creates for a lone "V1" channel. -/
def v1_signal : BaseSignal :=
  ((init_signal { id := 0, type := .ANALOG, name := "V1" } none true ctor_state0).1).getD default

/-- A device with only vendor and model set. -/
def vendor_model_device : SrHardwareDevice :=
  { driver_config_keys := [], channels := [], channel_groups := [],
    vendor := "a", model := "b", version := "", serial_number := "", connection_id := "" }

/-- A stand-alone session with one whole-device configurable, fed metadata
in the `feed_in_meta` witness. -/
def c6_session : HardwareDevice :=
  { type_ := .POWER_SUPPLY, all_signals_ := [], signal_name_map_ := [],
    sr_channel_signal_map_ := [], voltage_signal_ := none,
    current_signal_ := none, measurement_signal_ := none,
    configurables_ := [{ src := .device }], channel_group_name_signals_map_ := [] }

/-- A metadata packet: one recognized entry between two unrecognized ones. -/
def c6_entries : List (MetaKey × GVariant) :=
  [(.SR_CONF_UNRECOGNIZED 3, .gdouble 9),
   (.SR_CONF_ENABLED, .gbool true),
   (.SR_CONF_UNRECOGNIZED 8, .gbool false)]

/-! ## Helper lemmas about character-wise prefixes -/

/-- If `p` begins with `c` and `s` starts with `p`, then `s` begins with `c`. -/
lemma qStartsWith_head {s p : String} {c : Char} {cs : List Char}
    (hp : p.data = c :: cs) (h : qStartsWith s p = true) :
    ∃ t, s.data = c :: t := by
  unfold qStartsWith at h
  rw [hp] at h
  cases hds : s.data with
  | nil => rw [hds] at h; simp [List.isPrefixOf] at h
  | cons a t =>
    rw [hds] at h
    have : ((c == a) && cs.isPrefixOf t) = true := h
    simp only [Bool.and_eq_true, beq_iff_eq] at this
    exact ⟨t, by rw [this.1]⟩

/-- A string beginning with `a` does not start with a one-character prefix
whose character differs from `a`. -/
lemma qStartsWith_false_of_head {s p : String} {a c : Char} {t : List Char}
    (hs : s.data = a :: t) (hp : p.data = [c]) (hne : c ≠ a) :
    qStartsWith s p = false := by
  unfold qStartsWith
  rw [hp, hs]
  show ((c == a) && List.isPrefixOf [] t) = false
  simp [hne]

/-- Strings whose first characters differ are different. -/
lemma ne_of_data_head {s u : String} {a b : Char} {t v : List Char}
    (hs : s.data = a :: t) (hu : u.data = b :: v) (hne : a ≠ b) : s ≠ u := by
  intro heq
  rw [heq, hu] at hs
  exact hne (List.cons.injEq .. ▸ hs).1.symm

/-! ## C1 -/

/-- C1: the claim says a driver error raised while `sr_session_->start()` is
running makes the task exit with acquisition state = Stopped.  The code's
catch block for `start()` calls `error_handler` and returns WITHOUT setting
`aquisition_state_` (unlike the catch block for `run()`), so the state stays
Running — the value `open()` set right after spawning the thread.  This
theorem evaluates the code on a session whose driver `open` succeeds and
whose `start` fails: the error is reported, yet the final acquisition state
is Running, not Stopped. -/
theorem C1_start_error_leaves_running :
    (open_then_run .ok (.err "start failed") .ok false
      { device_open_ := false, aquisition_state_ := .Stopped,
        out_of_memory_ := false }).1.aquisition_state_ = .Running ∧
    Event.error_handler_call "start failed" ∈
      (open_then_run .ok (.err "start failed") .ok false
        { device_open_ := false, aquisition_state_ := .Stopped,
          out_of_memory_ := false }).2 ∧
    Event.set_state .Stopped ∉
      (open_then_run .ok (.err "start failed") .ok false
        { device_open_ := false, aquisition_state_ := .Stopped,
          out_of_memory_ := false }).2 := by
  decide

/-! ## C2 -/

/-- C2: the claim says an unmatched capability key is a hard configuration
error that is reported and never silently continued.  The code's
`assert("Unknown device")` asserts the address of a string literal, which is
never null, so the assert always passes and construction continues silently:
evaluating the constructor on a device with an unknown key yields a normal
session of type UNKNOWN with a classified signal and a configurable — a
usable production signal source, with no error raised (the constructor
result is `some`, not an abort). -/
theorem C2_unknown_device_silently_continues :
    HardwareDevice.construct unknown_key_device = some unknown_key_result ∧
    unknown_key_result.type_ = .UNKNOWN ∧
    unknown_key_result.all_signals.length = 1 ∧
    unknown_key_result.voltage_signal ≠ none ∧
    unknown_key_result.configurables.length = 1 := by
  refine ⟨rfl, rfl, rfl, ?_, rfl⟩
  decide

/-! ## C7 -/

/-- C7 counterexample: the claim says a flagged out-of-memory condition is
reported via `error_handler` exactly once.  When the run loop itself throws a
driver error after packet handling flagged out-of-memory, the catch block
reports only the driver error and returns: the OOM condition is reported
zero times even though it was flagged (the final state still carries
`out_of_memory_ = true`). -/
theorem C7_counterexample :
    (thread_trace .ok (.err "driver error") true
      { device_open_ := true, aquisition_state_ := .Running,
        out_of_memory_ := false }).count (.error_handler_call oom_message) = 0 ∧
    Event.packet_processing ∈
      thread_trace .ok (.err "driver error") true
        { device_open_ := true, aquisition_state_ := .Running,
          out_of_memory_ := false } ∧
    (aquisition_thread_proc .ok (.err "driver error") true
      { device_open_ := true, aquisition_state_ := .Running,
        out_of_memory_ := false }).1.out_of_memory_ = true := by
  decide

/-- C7 amended: when the run loop returns without a driver error, a flagged
out-of-memory condition is reported via `error_handler` exactly once, only
after the acquisition state was set to Stopped, and never from inside the
packet callback (every packet-processing step precedes the report); when the
run loop raises a driver error the OOM flag is not reported at all
(see the counterexample). -/
theorem C7_amended_oom_reported_once_after_stop (st : DevState) :
    (thread_trace .ok .ok true st).count (.error_handler_call oom_message) = 1 ∧
    ∀ l1 l2, thread_trace .ok .ok true st = l1 ++ .error_handler_call oom_message :: l2 →
      Event.set_state .Stopped ∈ l1 ∧
      Event.packet_processing ∉ l2 ∧
      Event.error_handler_call oom_message ∉ l2 := by
  have h : thread_trace .ok .ok true st =
      [.set_state .Running, .packet_processing, .set_state .Stopped,
       .free_unused_memory, .error_handler_call oom_message] := rfl
  rw [h]
  refine ⟨by decide, ?_⟩
  intro l1 l2 heq
  rcases l1 with _ | ⟨e1, l1⟩
  · simp [oom_message] at heq
  rcases l1 with _ | ⟨e2, l1⟩
  · simp [oom_message] at heq
  rcases l1 with _ | ⟨e3, l1⟩
  · simp [oom_message] at heq
  rcases l1 with _ | ⟨e4, l1⟩
  · simp [oom_message] at heq
  rcases l1 with _ | ⟨e5, l1⟩
  · simp only [List.cons_append, List.nil_append, List.cons.injEq] at heq
    obtain ⟨h1, h2, h3, h4, _, h5⟩ := heq
    subst h1 h2 h3 h4 h5
    refine ⟨by decide, by simp, by simp⟩
  · simp only [List.cons_append, List.cons.injEq] at heq
    obtain ⟨_, _, _, _, _, h6⟩ := heq
    exact absurd h6 (by simp)

/-- C7 amended, witness at a concrete state. -/
theorem C7_amended_oom_reported_once_after_stop_witness :
    (thread_trace .ok .ok true
      { device_open_ := true, aquisition_state_ := .Running,
        out_of_memory_ := false }).count (.error_handler_call oom_message) = 1 :=
  (C7_amended_oom_reported_once_after_stop
    { device_open_ := true, aquisition_state_ := .Running,
      out_of_memory_ := false }).1

/-! ## C8 -/

/-- C8: a driver-level failure inside `sr_device_->open()` is synchronous:
`open()` rethrows it to its caller as a `QString`, never invokes
`error_handler`, and does not start any acquisition (no packet callback is
registered, no thread is spawned, the device is not added to the session). -/
theorem C8_open_failure_synchronous (m : String) (st : DevState) :
    (open_ (.err m) st).thrown = some m ∧
    (∀ msg, Event.error_handler_call msg ∉ (open_ (.err m) st).events) ∧
    Event.thread_spawned ∉ (open_ (.err m) st).events ∧
    Event.datafeed_callback_added ∉ (open_ (.err m) st).events ∧
    Event.device_added ∉ (open_ (.err m) st).events := by
  unfold open_ close
  rcases st with ⟨o, a, mem⟩
  cases o <;> cases a <;> simp

/-- C8 witness at a concrete failure and state. -/
theorem C8_open_failure_synchronous_witness :
    (open_ (.err "cannot open device")
      { device_open_ := false, aquisition_state_ := .Stopped,
        out_of_memory_ := false }).thrown = some "cannot open device" :=
  (C8_open_failure_synchronous "cannot open device"
    { device_open_ := false, aquisition_state_ := .Stopped,
      out_of_memory_ := false }).1

/-! ## C9 -/

/-- C9: the claim says `full_name()` separates adjacent non-empty fields with
exactly one space and leaves no trailing separator.  The code appends the
separator AFTER each field (and the separator only becomes " " after the
first field), so for vendor "a" and model "b" it returns "ab " — no space
between the two fields and a trailing space — instead of the "a b" the claim
requires. -/
theorem C9_full_name_spacing :
    full_name vendor_model_device = "ab " ∧
    full_name vendor_model_device ≠ "a b" := by
  refine ⟨by decide, by decide⟩

/-! ## C5 -/

/-- C5: for every analog channel, the created signal's quantity and unit are
determined by the internal channel name: prefix "V" gives Voltage/Volt,
prefix "I" gives Current/Ampere, prefix "F" gives Frequency/Hertz, the exact
name "P1" leaves quantity and unit unset, and prefix "A" gives Voltage/Volt. -/
theorem C5_name_classification (ch : SrChannel) (common_time_data : Option AnalogData)
    (fixed_mq : Bool) (s : CtorState) (sig : BaseSignal)
    (hA : ch.type = .ANALOG)
    (hsig : (init_signal ch common_time_data fixed_mq s).1 = some sig) :
    (qStartsWith ch.name "V" = true →
      sig.data.quantity = some .VOLTAGE ∧ sig.data.unit = some .VOLT) ∧
    (qStartsWith ch.name "I" = true →
      sig.data.quantity = some .CURRENT ∧ sig.data.unit = some .AMPERE) ∧
    (qStartsWith ch.name "F" = true →
      sig.data.quantity = some .FREQUENCY ∧ sig.data.unit = some .HERTZ) ∧
    (ch.name = "P1" →
      sig.data.quantity = none ∧ sig.data.unit = none) ∧
    (qStartsWith ch.name "A" = true →
      sig.data.quantity = some .VOLTAGE ∧ sig.data.unit = some .VOLT) := by
  obtain ⟨cid, ty, nm⟩ := ch
  simp only at hA
  subst hA
  simp only [init_signal] at hsig
  rw [Option.some.injEq] at hsig
  subst hsig
  simp only
  refine ⟨?_, ?_, ?_, ?_, ?_⟩
  · intro h
    simp [h]
  · intro h
    obtain ⟨t, ht⟩ := qStartsWith_head (p := "I") rfl h
    have hV : qStartsWith nm "V" = false :=
      qStartsWith_false_of_head ht rfl (by decide)
    simp [h, hV]
  · intro h
    obtain ⟨t, ht⟩ := qStartsWith_head (p := "F") rfl h
    have hV : qStartsWith nm "V" = false :=
      qStartsWith_false_of_head ht rfl (by decide)
    have hI : qStartsWith nm "I" = false :=
      qStartsWith_false_of_head ht rfl (by decide)
    simp [h, hV, hI]
  · intro h
    subst h
    exact ⟨rfl, rfl⟩
  · intro h
    obtain ⟨t, ht⟩ := qStartsWith_head (p := "A") rfl h
    have hV : qStartsWith nm "V" = false :=
      qStartsWith_false_of_head ht rfl (by decide)
    have hI : qStartsWith nm "I" = false :=
      qStartsWith_false_of_head ht rfl (by decide)
    have hF : qStartsWith nm "F" = false :=
      qStartsWith_false_of_head ht rfl (by decide)
    have hP : nm ≠ "P1" := ne_of_data_head ht rfl (by decide)
    simp [h, hV, hI, hF, hP]

/-- C5 witness: a lone "V1" channel yields a Voltage/Volt signal. -/
theorem C5_name_classification_witness :
    v1_signal.data.quantity = some SrQuantity.VOLTAGE ∧
    v1_signal.data.unit = some SrUnit.VOLT :=
  (C5_name_classification { id := 0, type := .ANALOG, name := "V1" } none true
    ctor_state0 v1_signal rfl rfl).1 (by decide)

/-! ## Lemmas about `init_signal` / `init_signals` -/

/-- The canonical-signal bookkeeping touches none of the other members. -/
lemma update_canonical_all_signals (sig : BaseSignal) (s : CtorState) :
    (update_canonical sig s).all_signals_ = s.all_signals_ := by
  unfold update_canonical
  split_ifs <;> rfl

/-- The canonical-signal bookkeeping leaves the allocation counter alone. -/
lemma update_canonical_alloc (sig : BaseSignal) (s : CtorState) :
    (update_canonical sig s).alloc = s.alloc := by
  unfold update_canonical
  split_ifs <;> rfl

/-- A logic channel is skipped entirely. -/
lemma init_signal_logic (ch : SrChannel) (ctd? : Option AnalogData) (fm : Bool)
    (s : CtorState) (hL : ch.type = .LOGIC) :
    init_signal ch ctd? fm s = (none, s) := by
  obtain ⟨cid, ty, nm⟩ := ch
  simp only at hL
  subst hL
  rfl

/-- An analog channel appends exactly one signal; with a common time buffer
present the new signal's time buffer is that buffer and one id (the value
buffer's) is allocated. -/
lemma init_signal_analog_shared (ch : SrChannel) (ctd : AnalogData) (fm : Bool)
    (s : CtorState) (hA : ch.type = .ANALOG) :
    ∃ sig, (init_signal ch (some ctd) fm s).2.all_signals_ = s.all_signals_ ++ [sig] ∧
      sig.time_data = ctd := by
  obtain ⟨cid, ty, nm⟩ := ch
  simp only at hA
  subst hA
  exact ⟨_, update_canonical_all_signals _ _, rfl⟩

/-- An analog channel appends exactly one signal; with no common time buffer
a fresh time buffer gets id `s.alloc`, the value buffer id `s.alloc + 1`. -/
lemma init_signal_analog_fresh (ch : SrChannel) (fm : Bool)
    (s : CtorState) (hA : ch.type = .ANALOG) :
    ∃ sig, (init_signal ch none fm s).2.all_signals_ = s.all_signals_ ++ [sig] ∧
      sig.time_data.buf_id = s.alloc ∧
      (init_signal ch none fm s).2.alloc = s.alloc + 2 := by
  obtain ⟨cid, ty, nm⟩ := ch
  simp only at hA
  subst hA
  simp only [init_signal]
  refine ⟨_, update_canonical_all_signals _ _, rfl, ?_⟩
  rw [update_canonical_alloc]
  rfl

/-- An analog channel appends exactly one signal, whatever the common time
buffer situation is. -/
lemma init_signal_analog_snoc (ch : SrChannel) (ctd? : Option AnalogData) (fm : Bool)
    (s : CtorState) (hA : ch.type = .ANALOG) :
    ∃ sig, (init_signal ch ctd? fm s).2.all_signals_ = s.all_signals_ ++ [sig] := by
  cases ctd? with
  | some ctd =>
    obtain ⟨sig, hall, _⟩ := init_signal_analog_shared ch ctd fm s hA
    exact ⟨sig, hall⟩
  | none =>
    obtain ⟨sig, hall, _, _⟩ := init_signal_analog_fresh ch fm s hA
    exact ⟨sig, hall⟩

/-- The signal loop creates exactly one signal per analog channel. -/
lemma init_signals_length (chs : List SrChannel) (ctd? : Option AnalogData)
    (fm : Bool) (s : CtorState) :
    (init_signals chs ctd? fm s).all_signals_.length
      = s.all_signals_.length
        + (chs.filter (fun ch => ch.type == SrChannelType.ANALOG)).length := by
  induction chs generalizing s with
  | nil => simp [init_signals]
  | cons ch rest ih =>
    simp only [init_signals]
    cases hty : ch.type with
    | LOGIC =>
      rw [init_signal_logic ch ctd? fm s hty]
      rw [ih]
      simp [List.filter_cons, hty]
    | ANALOG =>
      obtain ⟨sig, hall⟩ := init_signal_analog_snoc ch ctd? fm s hty
      rw [ih, hall]
      simp [List.filter_cons, hty]
      omega

/-- With a common time buffer, every created signal references it. -/
lemma init_signals_time_shared (chs : List SrChannel) (ctd : AnalogData) (fm : Bool)
    (s : CtorState) (h : ∀ sig ∈ s.all_signals_, sig.time_data = ctd) :
    ∀ sig ∈ (init_signals chs (some ctd) fm s).all_signals_, sig.time_data = ctd := by
  induction chs generalizing s with
  | nil => exact h
  | cons ch rest ih =>
    simp only [init_signals]
    apply ih
    cases hty : ch.type with
    | LOGIC =>
      rw [init_signal_logic ch _ fm s hty]
      exact h
    | ANALOG =>
      obtain ⟨sig, hall, htd⟩ := init_signal_analog_shared ch ctd fm s hty
      rw [hall]
      intro x hx
      rcases List.mem_append.mp hx with hx | hx
      · exact h x hx
      · rw [List.mem_singleton] at hx
        subst hx
        exact htd

/-- With no common time buffer, every created signal gets a private, fresh
time buffer: all time-buffer ids stay below the allocation counter and are
pairwise distinct. -/
lemma init_signals_time_fresh (chs : List SrChannel) (fm : Bool) (s : CtorState)
    (h1 : ∀ sig ∈ s.all_signals_, sig.time_data.buf_id < s.alloc)
    (h2 : (s.all_signals_.map (fun sig => sig.time_data.buf_id)).Nodup) :
    (∀ sig ∈ (init_signals chs none fm s).all_signals_,
        sig.time_data.buf_id < (init_signals chs none fm s).alloc) ∧
    ((init_signals chs none fm s).all_signals_.map
        (fun sig => sig.time_data.buf_id)).Nodup := by
  induction chs generalizing s with
  | nil => exact ⟨h1, h2⟩
  | cons ch rest ih =>
    simp only [init_signals]
    cases hty : ch.type with
    | LOGIC =>
      rw [init_signal_logic ch none fm s hty]
      exact ih s h1 h2
    | ANALOG =>
      obtain ⟨sig, hall, hid, halloc⟩ := init_signal_analog_fresh ch fm s hty
      apply ih
      · rw [hall, halloc]
        intro x hx
        rcases List.mem_append.mp hx with hx | hx
        · have := h1 x hx
          omega
        · rw [List.mem_singleton] at hx
          subst hx
          omega
      · rw [hall]
        rw [List.map_append, List.nodup_append]
        refine ⟨h2, List.nodup_singleton _, ?_⟩
        intro y hy hyx
        simp only [List.map_cons, List.map_nil, List.mem_singleton] at hyx
        subst hyx
        obtain ⟨x, hx, hxy⟩ := List.mem_map.mp hy
        have := h1 x hx
        rw [hxy] at this
        rw [hid] at this
        exact absurd this (lt_irrefl _)

/-! ## Lemmas about the constructor -/

/-- The state the signal loop starts from. -/
def ctor_start (alloc0 : Nat) : CtorState :=
  { alloc := alloc0, all_signals_ := [], signal_name_map_ := [],
    sr_channel_signal_map_ := [], voltage_signal_ := none,
    current_signal_ := none, measurement_signal_ := none }

lemma construct_with_all_signals (d : SrHardwareDevice) (ty : DeviceType)
    (ctd? : Option AnalogData) (fm : Bool) (a0 : Nat) :
    (construct_with d ty ctd? fm a0).all_signals_ =
      (init_signals d.channels ctd? fm (ctor_start a0)).all_signals_ := by
  simp only [construct_with, ctor_start]
  split <;> rfl

lemma construct_with_voltage (d : SrHardwareDevice) (ty : DeviceType)
    (ctd? : Option AnalogData) (fm : Bool) (a0 : Nat) :
    (construct_with d ty ctd? fm a0).voltage_signal_ =
      (init_signals d.channels ctd? fm (ctor_start a0)).voltage_signal_ := by
  simp only [construct_with, ctor_start]
  split <;> rfl

lemma construct_with_current (d : SrHardwareDevice) (ty : DeviceType)
    (ctd? : Option AnalogData) (fm : Bool) (a0 : Nat) :
    (construct_with d ty ctd? fm a0).current_signal_ =
      (init_signals d.channels ctd? fm (ctor_start a0)).current_signal_ := by
  simp only [construct_with, ctor_start]
  split <;> rfl

lemma construct_with_measurement (d : SrHardwareDevice) (ty : DeviceType)
    (ctd? : Option AnalogData) (fm : Bool) (a0 : Nat) :
    (construct_with d ty ctd? fm a0).measurement_signal_ =
      (init_signals d.channels ctd? fm (ctor_start a0)).measurement_signal_ := by
  simp only [construct_with, ctor_start]
  split <;> rfl

lemma construct_with_configurables (d : SrHardwareDevice) (ty : DeviceType)
    (ctd? : Option AnalogData) (fm : Bool) (a0 : Nat) :
    (construct_with d ty ctd? fm a0).configurables_ =
      if 0 < d.channel_groups.length then
        d.channel_groups.map (fun cg => { src := .group cg.name })
      else
        [{ src := .device }] := by
  simp only [construct_with]
  split <;> simp_all

/-- Construction always succeeds (the `assert` in the unknown-type branch
tests a string literal and never fires), and the result is `construct_with`
at the parameters the key chain selected. -/
lemma construct_eq_with (d : SrHardwareDevice) (dev : HardwareDevice)
    (h : HardwareDevice.construct d = some dev) :
    ∃ ty ctd? fm a0, dev = construct_with d ty ctd? fm a0 := by
  unfold HardwareDevice.construct at h
  split_ifs at h <;>
    exact ⟨_, _, _, _, (Option.some.injEq .. ▸ h).symm⟩

/-! ## C4 -/

/-- C4: for an electronic load, construction creates exactly one shared time
buffer (the TIME/SECOND buffer allocated first, id 0) and every one of the N
signals created for the N analog channels references exactly that buffer;
for a power supply, each of the N signals gets its own private time buffer
(all time-buffer ids pairwise distinct).  The decision is the
`common_time_data` value fixed once in the constructor's key chain. -/
theorem C4_time_buffer_policy (d : SrHardwareDevice) (dev : HardwareDevice)
    (h : HardwareDevice.construct d = some dev) :
    ((d.driver_config_keys.contains .POWER_SUPPLY = false ∧
      d.driver_config_keys.contains .ELECTRONIC_LOAD = true) →
      dev.all_signals.length
          = (d.channels.filter (fun ch => ch.type == SrChannelType.ANALOG)).length ∧
      ∀ sig ∈ dev.all_signals, sig.time_data = (init_time_data 0).1) ∧
    (d.driver_config_keys.contains .POWER_SUPPLY = true →
      dev.all_signals.length
          = (d.channels.filter (fun ch => ch.type == SrChannelType.ANALOG)).length ∧
      (dev.all_signals.map (fun sig => sig.time_data.buf_id)).Nodup) := by
  constructor
  · rintro ⟨hPS, hEL⟩
    simp only [HardwareDevice.construct, hPS, hEL, Bool.false_eq_true, if_false,
      if_true, Option.some.injEq] at h
    subst h
    simp only [HardwareDevice.all_signals, construct_with_all_signals]
    constructor
    · rw [init_signals_length]
      simp [ctor_start]
    · apply init_signals_time_shared
      intro sig hsig
      exact absurd hsig (List.not_mem_nil _)
  · intro hPS
    simp only [HardwareDevice.construct, hPS, if_true, Option.some.injEq] at h
    subst h
    simp only [HardwareDevice.all_signals, construct_with_all_signals]
    constructor
    · rw [init_signals_length]
      simp [ctor_start]
    · refine (init_signals_time_fresh d.channels true (ctor_start 0) ?_ ?_).2
      · intro sig hsig
        exact absurd hsig (List.not_mem_nil _)
      · exact List.nodup_nil

/-- C4 witness: a two-channel electronic load yields two signals (sharing
the one time buffer, per the theorem's other conjunct), and a two-channel
power supply yields signals with pairwise distinct time-buffer ids. -/
theorem C4_time_buffer_policy_witness :
    el_result.all_signals.length = 2 ∧
    (el_result.all_signals.map (fun sig => sig.time_data.buf_id)) = [0, 0] ∧
    (ps_result.all_signals.map (fun sig => sig.time_data.buf_id)).Nodup := by
  have hEL := (C4_time_buffer_policy el_device el_result rfl).1 ⟨by decide, by decide⟩
  have hPS := ((C4_time_buffer_policy ps_device ps_result rfl).2 (by decide)).2
  refine ⟨?_, by decide, hPS⟩
  rw [hEL.1]
  decide

/-! ## C3: canonical signals are first-match -/

/-- The predicate behind `voltage_signal_`: internal name with prefix "V". -/
def is_v_name (sig : BaseSignal) : Bool := qStartsWith sig.internal_name "V"

/-- The predicate behind `current_signal_`: internal name with prefix "I". -/
def is_i_name (sig : BaseSignal) : Bool := qStartsWith sig.internal_name "I"

/-- The predicate behind `measurement_signal_`: internal name exactly "P1"
or exactly "A1". -/
def is_meas_name (sig : BaseSignal) : Bool :=
  sig.internal_name == "P1" || sig.internal_name == "A1"

lemma find?_append_single {α : Type} (p : α → Bool) (l : List α) (x : α) :
    (l ++ [x]).find? p = (l.find? p).or (if p x then some x else none) := by
  rw [List.find?_append]
  congr 1
  cases hpx : p x with
  | true => simp [List.find?, hpx]
  | false => simp [List.find?, hpx]

/-- If `p x` holding implies the accumulated first match is already set,
appending `x` does not change the first match. -/
lemma find_stable {α : Type} (p : α → Bool) (l : List α) (x : α) (o : Option α)
    (ho : o = l.find? p) (hno : p x = true → o ≠ none) :
    o = (l.find? p).or (if p x then some x else none) := by
  cases hpx : p x with
  | false => rw [if_neg (by simp [hpx]), Option.or_none]; exact ho
  | true =>
    have hne := hno hpx
    cases hfind : l.find? p with
    | none => rw [ho, hfind] at hne; exact absurd rfl hne
    | some y => rw [ho, hfind]; rfl

/-- The canonical-slot chain keeps each slot equal to the first match over
the signal list, as the list grows by one signal. -/
lemma update_canonical_find (sig : BaseSignal) (s1 : CtorState) (l : List BaseSignal)
    (hall : s1.all_signals_ = l ++ [sig])
    (hv : s1.voltage_signal_ = l.find? is_v_name)
    (hc : s1.current_signal_ = l.find? is_i_name)
    (hm : s1.measurement_signal_ = l.find? is_meas_name) :
    (update_canonical sig s1).voltage_signal_
        = (update_canonical sig s1).all_signals_.find? is_v_name ∧
    (update_canonical sig s1).current_signal_
        = (update_canonical sig s1).all_signals_.find? is_i_name ∧
    (update_canonical sig s1).measurement_signal_
        = (update_canonical sig s1).all_signals_.find? is_meas_name := by
  rw [update_canonical_all_signals, hall]
  unfold update_canonical
  split_ifs with h1 h2 h3 h4
  · -- new signal is the first "V"-named one
    obtain ⟨h1a, h1b⟩ := h1
    obtain ⟨t, ht⟩ := qStartsWith_head (p := "V") rfl h1a
    have hlv : l.find? is_v_name = none := by rw [← hv]; exact h1b
    have hqi : qStartsWith sig.internal_name "I" = false :=
      qStartsWith_false_of_head ht rfl (by decide)
    have hne1 : sig.internal_name ≠ "P1" := ne_of_data_head ht rfl (by decide)
    have hne2 : sig.internal_name ≠ "A1" := ne_of_data_head ht rfl (by decide)
    refine ⟨?_, ?_, ?_⟩ <;> rw [find?_append_single]
    · simp [is_v_name, h1a, hlv, Option.none_or]
    · simp [is_i_name, hqi, hc, Option.or_none]
    · simp [is_meas_name, hne1, hne2, hm, Option.or_none]
  · -- new signal is the first "I"-named one
    obtain ⟨h2a, h2b⟩ := h2
    obtain ⟨t, ht⟩ := qStartsWith_head (p := "I") rfl h2a
    have hlc : l.find? is_i_name = none := by rw [← hc]; exact h2b
    have hqv : qStartsWith sig.internal_name "V" = false :=
      qStartsWith_false_of_head ht rfl (by decide)
    have hne1 : sig.internal_name ≠ "P1" := ne_of_data_head ht rfl (by decide)
    have hne2 : sig.internal_name ≠ "A1" := ne_of_data_head ht rfl (by decide)
    refine ⟨?_, ?_, ?_⟩ <;> rw [find?_append_single]
    · simp [is_v_name, hqv, hv, Option.or_none]
    · simp [is_i_name, h2a, hlc, Option.none_or]
    · simp [is_meas_name, hne1, hne2, hm, Option.or_none]
  · -- new signal is the first measurement signal, named "P1"
    obtain ⟨h3a, h3b⟩ := h3
    have ht : sig.internal_name.data = 'P' :: ['1'] := by rw [h3a]
    have hlm : l.find? is_meas_name = none := by rw [← hm]; exact h3b
    have hqv : qStartsWith sig.internal_name "V" = false :=
      qStartsWith_false_of_head ht rfl (by decide)
    have hqi : qStartsWith sig.internal_name "I" = false :=
      qStartsWith_false_of_head ht rfl (by decide)
    refine ⟨?_, ?_, ?_⟩ <;> rw [find?_append_single]
    · simp [is_v_name, hqv, hv, Option.or_none]
    · simp [is_i_name, hqi, hc, Option.or_none]
    · simp [is_meas_name, h3a, hlm, Option.none_or]
  · -- new signal is the first measurement signal, named "A1"
    obtain ⟨h4a, h4b⟩ := h4
    have ht : sig.internal_name.data = 'A' :: ['1'] := by rw [h4a]
    have hlm : l.find? is_meas_name = none := by rw [← hm]; exact h4b
    have hqv : qStartsWith sig.internal_name "V" = false :=
      qStartsWith_false_of_head ht rfl (by decide)
    have hqi : qStartsWith sig.internal_name "I" = false :=
      qStartsWith_false_of_head ht rfl (by decide)
    refine ⟨?_, ?_, ?_⟩ <;> rw [find?_append_single]
    · simp [is_v_name, hqv, hv, Option.or_none]
    · simp [is_i_name, hqi, hc, Option.or_none]
    · simp [is_meas_name, h4a, hlm, Option.none_or]
  · -- no slot is taken: every slot that could match is already filled
    refine ⟨?_, ?_, ?_⟩ <;> rw [find?_append_single]
    · refine find_stable _ _ _ _ hv ?_
      intro hpv hnone
      exact h1 ⟨hpv, hnone⟩
    · refine find_stable _ _ _ _ hc ?_
      intro hpi hnone
      exact h2 ⟨hpi, hnone⟩
    · refine find_stable _ _ _ _ hm ?_
      intro hpm hnone
      have hcase : sig.internal_name = "P1" ∨ sig.internal_name = "A1" := by
        simpa [is_meas_name] using hpm
      rcases hcase with hp | ha
      · exact h3 ⟨hp, hnone⟩
      · exact h4 ⟨ha, hnone⟩

/-- One `init_signal` call preserves "each canonical slot is the first
match over `all_signals_`". -/
lemma init_signal_canonical_step (ch : SrChannel) (ctd? : Option AnalogData)
    (fm : Bool) (s : CtorState)
    (hv : s.voltage_signal_ = s.all_signals_.find? is_v_name)
    (hc : s.current_signal_ = s.all_signals_.find? is_i_name)
    (hm : s.measurement_signal_ = s.all_signals_.find? is_meas_name) :
    ((init_signal ch ctd? fm s).2.voltage_signal_
        = (init_signal ch ctd? fm s).2.all_signals_.find? is_v_name) ∧
    ((init_signal ch ctd? fm s).2.current_signal_
        = (init_signal ch ctd? fm s).2.all_signals_.find? is_i_name) ∧
    ((init_signal ch ctd? fm s).2.measurement_signal_
        = (init_signal ch ctd? fm s).2.all_signals_.find? is_meas_name) := by
  obtain ⟨cid, ty, nm⟩ := ch
  cases ty with
  | LOGIC => exact ⟨hv, hc, hm⟩
  | ANALOG => exact update_canonical_find _ _ s.all_signals_ rfl hv hc hm

/-- The signal loop preserves the first-match invariant. -/
lemma init_signals_canonical (chs : List SrChannel) (ctd? : Option AnalogData)
    (fm : Bool) (s : CtorState)
    (hv : s.voltage_signal_ = s.all_signals_.find? is_v_name)
    (hc : s.current_signal_ = s.all_signals_.find? is_i_name)
    (hm : s.measurement_signal_ = s.all_signals_.find? is_meas_name) :
    ((init_signals chs ctd? fm s).voltage_signal_
        = (init_signals chs ctd? fm s).all_signals_.find? is_v_name) ∧
    ((init_signals chs ctd? fm s).current_signal_
        = (init_signals chs ctd? fm s).all_signals_.find? is_i_name) ∧
    ((init_signals chs ctd? fm s).measurement_signal_
        = (init_signals chs ctd? fm s).all_signals_.find? is_meas_name) := by
  induction chs generalizing s with
  | nil => exact ⟨hv, hc, hm⟩
  | cons ch rest ih =>
    have step := init_signal_canonical_step ch ctd? fm s hv hc hm
    exact ih _ step.1 step.2.1 step.2.2

/-- C3 counterexample: the claim says `voltage_signal()` returns the first
signal whose QUANTITY is Voltage.  A multimeter whose only channel is "A1"
gets one signal, classified Voltage/Volt (the "A" prefix rule), so the first
Voltage-quantity signal exists — but `voltage_signal()` returns null,
because the canonical-slot chain only reacts to names with prefix "V". -/
theorem C3_counterexample :
    HardwareDevice.construct a1_only_device = some a1_only_result ∧
    (a1_only_result.all_signals.map (fun sig => sig.data.quantity))
        = [some SrQuantity.VOLTAGE] ∧
    a1_only_result.voltage_signal = none := by
  refine ⟨rfl, by decide, by decide⟩

/-- C3 amended: `voltage_signal()` returns the first created signal whose
internal NAME has prefix "V" (signals classified as Voltage through the "A"
prefix are not recorded), `current_signal()` the first whose name has prefix
"I" (which coincides with the first Current-quantity signal), and
`measurement_signal()` the first whose name is exactly "P1" or "A1";
first-seen wins and later matches never override. -/
theorem C3_amended_first_match (d : SrHardwareDevice) (dev : HardwareDevice)
    (h : HardwareDevice.construct d = some dev) :
    dev.voltage_signal = dev.all_signals.find? is_v_name ∧
    dev.current_signal = dev.all_signals.find? is_i_name ∧
    dev.measurement_signal = dev.all_signals.find? is_meas_name := by
  obtain ⟨ty, ctd?, fm, a0, rfl⟩ := construct_eq_with d dev h
  simp only [HardwareDevice.voltage_signal, HardwareDevice.current_signal,
    HardwareDevice.measurement_signal, HardwareDevice.all_signals,
    construct_with_voltage, construct_with_current, construct_with_measurement,
    construct_with_all_signals]
  exact init_signals_canonical d.channels ctd? fm (ctor_start a0) rfl rfl rfl

/-- C3 amended, witness: a demo device with channels "F1", "A1", "V1". -/
theorem C3_amended_first_match_witness :
    demo_result.voltage_signal = demo_result.all_signals.find? is_v_name ∧
    demo_result.current_signal = demo_result.all_signals.find? is_i_name ∧
    demo_result.measurement_signal = demo_result.all_signals.find? is_meas_name :=
  C3_amended_first_match demo_device demo_result rfl

/-! ## C6 and C10: metadata demultiplexing -/

/-- The decoding table of the `feed_in_meta` switch: which slot (with which
decoded value) a key emits, `none` for the `default:` case. -/
def entry_slot (k : MetaKey) (v : GVariant) : Option Slot :=
  match k with
  | .SR_CONF_ENABLED => some (.enabled_changed (g_variant_get_boolean v))
  | .SR_CONF_VOLTAGE_TARGET => some (.voltage_target_changed (g_variant_get_double v))
  | .SR_CONF_CURRENT_LIMIT => some (.current_limit_changed (g_variant_get_double v))
  | .SR_CONF_OVER_TEMPERATURE_PROTECTION => some (.otp_enabled_changed (g_variant_get_boolean v))
  | .SR_CONF_OVER_TEMPERATURE_PROTECTION_ACTIVE => some (.otp_active_changed (g_variant_get_boolean v))
  | .SR_CONF_OVER_VOLTAGE_PROTECTION_ENABLED => some (.ovp_enabled_changed (g_variant_get_boolean v))
  | .SR_CONF_OVER_VOLTAGE_PROTECTION_ACTIVE => some (.ovp_active_changed (g_variant_get_boolean v))
  | .SR_CONF_OVER_VOLTAGE_PROTECTION_THRESHOLD => some (.ovp_threshold_changed (g_variant_get_double v))
  | .SR_CONF_OVER_CURRENT_PROTECTION_ENABLED => some (.ocp_enabled_changed (g_variant_get_boolean v))
  | .SR_CONF_OVER_CURRENT_PROTECTION_ACTIVE => some (.ocp_active_changed (g_variant_get_boolean v))
  | .SR_CONF_OVER_CURRENT_PROTECTION_THRESHOLD => some (.ocp_threshold_changed (g_variant_get_double v))
  | .SR_CONF_UNDER_VOLTAGE_CONDITION => some (.uvc_enabled_changed (g_variant_get_boolean v))
  | .SR_CONF_UNDER_VOLTAGE_CONDITION_ACTIVE => some (.uvc_active_changed (g_variant_get_boolean v))
  | .SR_CONF_UNRECOGNIZED _ => none

/-- With a valid configurable, processing the entries emits exactly the
decoded slot of each recognized entry, on that configurable, in order. -/
lemma feed_entries_eq (c0 : Configurable) (entries : List (MetaKey × GVariant)) :
    feed_entries (some c0) entries
      = some (entries.filterMap
          (fun e => (entry_slot e.1 e.2).map (fun sl => (c0, sl)))) := by
  induction entries with
  | nil => rfl
  | cons entry rest ih =>
    obtain ⟨k, v⟩ := entry
    cases k <;> simp [feed_entries, emit, entry_slot, ih, List.filterMap_cons]

/-- A key decodes to a slot exactly when the switch recognizes it. -/
lemma entry_slot_isSome (k : MetaKey) (v : GVariant) :
    (entry_slot k v).isSome = recognized_key k := by
  cases k <;> rfl

lemma length_filterMap_eq_length_filter {α β : Type} (f : α → Option β) (l : List α) :
    (l.filterMap f).length = (l.filter (fun a => (f a).isSome)).length := by
  induction l with
  | nil => rfl
  | cons a l ih =>
    cases hfa : f a <;> simp [List.filterMap_cons, List.filter_cons, hfa, ih]

/-- C6: feeding a metadata packet emits, for each recognized key entry,
exactly one change notification carrying the decoded value (in particular
an "enabled" entry yields one enabled-changed notification with the decoded
boolean), every notification is dispatched on the configurable at index 0
whatever group the entry belonged to, and entries with unrecognized keys are
silently ignored. -/
theorem C6_meta_demux (dev : HardwareDevice) (c0 : Configurable)
    (entries : List (MetaKey × GVariant))
    (h : dev.configurables_.head? = some c0) :
    ∃ emitted, feed_in_meta dev entries = some emitted ∧
      emitted.length = (entries.filter (fun e => recognized_key e.1)).length ∧
      (∀ em ∈ emitted, em.1 = c0) ∧
      (∀ v : GVariant, (MetaKey.SR_CONF_ENABLED, v) ∈ entries →
        (c0, Slot.enabled_changed (g_variant_get_boolean v)) ∈ emitted) := by
  refine ⟨entries.filterMap (fun e => (entry_slot e.1 e.2).map (fun sl => (c0, sl))),
    ?_, ?_, ?_, ?_⟩
  · unfold feed_in_meta
    rw [h]
    exact feed_entries_eq c0 entries
  · rw [length_filterMap_eq_length_filter]
    have hpt : ∀ e : MetaKey × GVariant,
        ((entry_slot e.1 e.2).map (fun sl => (c0, sl))).isSome = recognized_key e.1 := by
      rintro ⟨k, v⟩
      cases k <;> rfl
    rw [funext hpt]
  · intro em hem
    obtain ⟨e, _, hmap⟩ := List.mem_filterMap.mp hem
    cases hslot : entry_slot e.1 e.2 with
    | none => rw [hslot] at hmap; cases hmap
    | some sl =>
      rw [hslot] at hmap
      rw [show (some sl).map (fun sl => (c0, sl)) = some (c0, sl) from rfl] at hmap
      injection hmap with hmap
      rw [← hmap]
  · intro v hv
    exact List.mem_filterMap.mpr ⟨(MetaKey.SR_CONF_ENABLED, v), hv, rfl⟩

/-- C6 witness: a packet with one "enabled" entry between two unrecognized
entries yields exactly one notification, on configurable 0, with the decoded
boolean. -/
theorem C6_meta_demux_witness :
    ∃ emitted, feed_in_meta c6_session c6_entries = some emitted ∧
      emitted.length = (c6_entries.filter (fun e => recognized_key e.1)).length ∧
      (∀ em ∈ emitted, em.1 = { src := .device }) ∧
      (∀ v : GVariant, (MetaKey.SR_CONF_ENABLED, v) ∈ c6_entries →
        ({ src := .device }, Slot.enabled_changed (g_variant_get_boolean v)) ∈ emitted) :=
  C6_meta_demux c6_session { src := .device } c6_entries rfl

/-- C10: after construction the configurables list is never empty — one per
reported channel group when there is at least one, otherwise exactly one
whole-device configurable — so `feed_in_meta`'s access to index 0 always
finds a configurable and never dispatches through null, for every packet. -/
theorem C10_configurables_nonempty (d : SrHardwareDevice) (dev : HardwareDevice)
    (h : HardwareDevice.construct d = some dev) :
    0 < dev.configurables.length ∧
    dev.configurables.length
        = (if 0 < d.channel_groups.length then d.channel_groups.length else 1) ∧
    ∀ entries, (feed_in_meta dev entries).isSome = true := by
  obtain ⟨ty, ctd?, fm, a0, rfl⟩ := construct_eq_with d dev h
  have hconf := construct_with_configurables d ty ctd? fm a0
  have hlen : (construct_with d ty ctd? fm a0).configurables.length
      = (if 0 < d.channel_groups.length then d.channel_groups.length else 1) := by
    simp only [HardwareDevice.configurables, hconf]
    split_ifs <;> simp
  refine ⟨?_, hlen, ?_⟩
  · rw [hlen]
    split_ifs with hg
    · exact hg
    · exact Nat.one_pos
  · intro entries
    unfold feed_in_meta
    cases hL : (construct_with d ty ctd? fm a0).configurables_ with
    | nil =>
      rw [hconf] at hL
      revert hL
      split_ifs with hg
      · intro hL
        rw [List.map_eq_nil_iff] at hL
        rw [hL] at hg
        exact absurd hg (by simp)
      · intro hL
        cases hL
    | cons c cs =>
      show (feed_entries ((c :: cs).head?) entries).isSome = true
      rw [show (c :: cs).head? = some c from rfl, feed_entries_eq]
      rfl

/-- C10 witness: the two-channel power supply (zero reported groups) has a
non-empty configurables list and metadata feeding never fails. -/
theorem C10_configurables_nonempty_witness :
    0 < ps_result.configurables.length ∧
    (feed_in_meta ps_result [(.SR_CONF_ENABLED, .gbool false)]).isSome = true :=
  ⟨(C10_configurables_nonempty ps_device ps_result rfl).1,
   (C10_configurables_nonempty ps_device ps_result rfl).2.2 _⟩

end SmuView
